import Mathlib

/-!
Shallow embedding of the backend in src/index.js.

The file in src/ holds two Express applications separated by a document
marker: a first, minimal variant (health check plus a prompt-only
POST /api/generate that returns the inference URL directly, or converts a
ReadableStream result into an inline base64 data URI), and a richer variant
(multipart upload of an image and mask, sharp preprocessing, S3 upload,
MongoDB persistence, and a gallery listing endpoint).

External managed services (the Replicate inference provider, S3, MongoDB,
node-fetch, sharp, JSON.parse of the dimensions payload, and the system
clock) are modelled as oracle fields of a `World` record; the handler logic
itself is translated faithfully from the JavaScript source.  Remote calls
made by a handler are recorded in an event trace so that claims of the form
"no remote call is attempted" become statements about the trace.
-/

/-- A JavaScript string-or-undefined value. Interpolating `undefined` into a
template literal yields the text "undefined". -/
def jsStr : Option String → String
  | some s => s
  | none => "undefined"

/-- A Node.js Buffer: a view (offset, length) into an underlying
ArrayBuffer byte pool.  The `pool` field models the `.buffer` property of a
Buffer, which exposes the entire underlying ArrayBuffer, not the view. -/
structure Buf where
  pool : List Nat
  off : Nat
  len : Nat
deriving Repr, DecidableEq

/-- The byte contents of the Buffer view (what the Buffer denotes). -/
def Buf.bytes (b : Buf) : List Nat :=
  (b.pool.drop b.off).take b.len

/-- An uploaded multipart file as multer presents it: an in-memory byte
buffer and the client-supplied original filename. -/
structure UploadedFile where
  buffer : List Nat
  originalname : String
deriving Repr, DecidableEq

/-- The `req.files` object produced by the multer `.fields` middleware for a
multipart request: at most one file per configured field name. -/
structure Files where
  image : Option UploadedFile
  mask : Option UploadedFile
deriving Repr, DecidableEq

/-- A POST /api/generate request.  `files` is `none` when the request was
not multipart (multer then leaves `req.files` undefined); `prompt` and
`dimensions` come from `req.body` and may each be absent. -/
structure Request where
  prompt : Option String
  dimensions : Option String
  files : Option Files
deriving Repr, DecidableEq

/-- The parsed dimensions object, the shape JSON.parse is expected to yield
for the `dimensions` body field. -/
structure Dims where
  width : Nat
  length : Nat
  height : Nat
deriving Repr, DecidableEq

/-- The value stored in a persisted document under `dimensions`: the code
may hand the database the raw JSON string from the request or a parsed
structured object; this type lets the two be distinguished. -/
inductive DimsValue where
  | raw (s : String)
  | parsed (d : Dims)
deriving Repr, DecidableEq

/-- A GalleryItem document as constructed for `new Gallery({...})`.
`prompt` is optional here because the handler forwards whatever was in the
request body; the mongoose schema marks `prompt` required, which is checked
at save time (see `mongooseRequiredOk`).  `createdAt` defaults to the
current time at document creation. -/
structure GalleryDoc where
  prompt : Option String
  imageUrl : String
  dimensions : Option DimsValue
  originalImage : Option String
  maskImage : Option String
  createdAt : Nat
deriving Repr, DecidableEq

/-- The mongoose schema validation run on save: `prompt` and `imageUrl` are
required.  `imageUrl` is a non-optional String in this embedding, so only
the `prompt` requirement can fail. -/
def mongooseRequiredOk (d : GalleryDoc) : Bool :=
  d.prompt.isSome

/-- The input object sent to `replicate.run` by the richer variant.  Fields
that the code adds or deletes depending on the mode are `Option`s, with
`none` meaning the key is absent from the object. -/
structure ModelInput where
  prompt : String
  negative_prompt : String
  num_inference_steps : Nat
  guidance_scale : Nat
  prompt_strength : Nat
  denoising_strength : ℚ
  scheduler : String
  num_outputs : Nat
  aspect_ratio : String
  lora_scale : ℚ
  output_format : String
  controlnet_conditioning_scale : Option ℚ
  controlnet_type : Option String
  image : Option String
  mask : Option String
deriving Repr, DecidableEq

/-- The model input object literal of the richer variant, before the
mode-dependent mutations: `image` and `mask` are not keys of the literal
(hence `none`), while both controlnet keys are present. -/
def baseModelInput (ep : String) : ModelInput where
  prompt := ep
  negative_prompt := "bad quality, low quality, blurry, distorted proportions, inconsistent style, mismatched textures"
  num_inference_steps := 50
  guidance_scale := 10
  prompt_strength := 1
  denoising_strength := 3 / 4
  scheduler := "DPMSolverMultistep"
  num_outputs := 1
  aspect_ratio := "16:9"
  lora_scale := 7 / 10
  output_format := "jpg"
  controlnet_conditioning_scale := some (1 / 2)
  controlnet_type := some "depth"
  image := none
  mask := none

/-- One element of the list resolved from `replicate.run`: a string URL, a
ReadableStream of byte chunks, or some other (truthy) object. -/
inductive OutputItem where
  | str (s : String)
  | stream (chunks : List (List Nat))
  | other
deriving Repr, DecidableEq

/-- The richer variant accepts the inference output only via the check
`!output || !output[0] || typeof output[0] !== 'string'`: the first element
must exist, be truthy (so not the empty string), and be a string.  Returns
the accepted URL, or `none` when the check throws. -/
def firstStr? : List OutputItem → Option String
  | OutputItem.str s :: _ => if s = "" then none else some s
  | _ => none

/-- The room-size clause interpolated into the prompt when dimensions were
supplied. -/
def dimensionsPrompt (d : Dims) : String :=
  "in a " ++ toString d.width ++ "meters wide by " ++ toString d.length ++
    "meters long by " ++ toString d.height ++ "meters high room"

/-- The enhanced prompt template of the richer variant, after the trailing
`.trim()` has removed the leading literal whitespace. -/
def enhancedPrompt (p : String) (d : Option Dims) : String :=
  "HIGH PRIORITY INSTRUCTIONS: ((" ++ p ++
    ")), blended transition with the existing structure, INTR, Style reference: modern contemporary architecture, high-end interior design, " ++
    (match d with
     | some dd => dimensionsPrompt dd
     | none => ".")

/-- Storage configuration drawn from the environment: bucket name and
region. -/
structure Env where
  bucket : String
  region : String
deriving Repr, DecidableEq

/-- The storage key built inside `uploadToS3`: the fixed path prefix,
`Date.now()`, an underscore, and the caller-supplied filename fragment used
verbatim. -/
def s3Key (t : Nat) (filename : String) : String :=
  "genai-images/" ++ toString t ++ "_" ++ filename

/-- The public URL returned by `uploadToS3` for a given key. -/
def s3Url (env : Env) (key : String) : String :=
  "https://" ++ env.bucket ++ ".s3." ++ env.region ++ ".amazonaws.com/" ++ key

/-- A remote call made by the richer generate handler, recorded in order. -/
inductive Event where
  | inferCall (inp : ModelInput)
  | fetchCall (url : String)
  | s3Upload (body : List Nat) (key : String) (contentType : String)
  | dbSave (doc : GalleryDoc)
deriving Repr, DecidableEq

/-- A JSON response body of the generate endpoints. -/
inductive RespBody where
  | okUrl (outputUrl : String)
  | okFull (outputUrl : String) (originalImage maskImage : Option String)
  | err (error : String)
  | errDetails (error details : String)
deriving Repr, DecidableEq

/-- An HTTP response: status code and JSON body. -/
structure Resp where
  status : Nat
  body : RespBody
deriving Repr, DecidableEq

/-- The catch-all 500 response of the generate handlers:
`{error: "Failed to generate design", details: <message>}`. -/
def r500 (details : String) : Resp :=
  ⟨500, RespBody.errDetails "Failed to generate design" details⟩

/-- Oracles for the external services the richer variant calls.  Each field
models one managed dependency; the handler logic never depends on anything
but these and the request. -/
structure World where
  replicateRun : ModelInput → List OutputItem
  fetchOk : String → Bool
  fetchBody : String → List Nat
  sharpImage : List Nat → List Nat
  sharpMask : List Nat → Buf
  jsonParseDims : String → Except String Dims
  dbOk : GalleryDoc → Bool
  now : Nat → Nat

/-- Whether `newGalleryItem.save()` resolves: mongoose runs the schema
validation (required fields) and then the database round trip. -/
def saveOk (w : World) (d : GalleryDoc) : Bool :=
  mongooseRequiredOk d && w.dbOk d

/-- The dimensions preprocessing of the richer variant:
`dimensions ? JSON.parse(dimensions) : null`.  The empty string is falsy in
JavaScript, so it is treated like an absent field; a JSON.parse failure
propagates as a thrown error. -/
def dimsStep (w : World) : Option String → Except String (Option Dims)
  | none => Except.ok none
  | some s =>
    if s = "" then Except.ok none
    else
      match w.jsonParseDims s with
      | Except.ok d => Except.ok (some d)
      | Except.error m => Except.error m

/-- The storage key for the generated artifact: the filename fragment is
`generated_` plus a `Date.now()` reading plus `.jpg`, and `uploadToS3`
prefixes another reading.  `k` is the index of the first reading. -/
def genKey (w : World) (k : Nat) : String :=
  s3Key (w.now (k + 1)) ("generated_" ++ toString (w.now k) ++ ".jpg")

/-- The gallery document built by `new Gallery({...})` in the richer
handler: the raw request prompt, the S3 URL of the generated artifact, the
raw `dimensions` body string (not the parsed object), the uploaded image
and mask URLs (null in prompt-only mode), and the defaulted timestamp. -/
def genDoc (env : Env) (w : World) (req : Request)
    (origUrl maskUrl : Option String) (k : Nat) : GalleryDoc :=
  ⟨req.prompt, s3Url env (genKey w k), req.dimensions.map DimsValue.raw,
    origUrl, maskUrl, w.now (k + 2)⟩

/-- The tail of the richer generate handler shared by both modes: run the
model, validate the output shape, fetch the artifact, upload it to S3,
persist the gallery document, and respond.  `k` is the index of the next
`Date.now()` reading and `evs` the remote calls already made. -/
def genTail (env : Env) (w : World) (req : Request) (mi : ModelInput)
    (origUrl maskUrl : Option String) (k : Nat) (evs : List Event) :
    Resp × List Event :=
  match firstStr? (w.replicateRun mi) with
  | none =>
    (r500 "Invalid output format from Replicate API", evs ++ [Event.inferCall mi])
  | some url =>
    if w.fetchOk url then
      if saveOk w (genDoc env w req origUrl maskUrl k) then
        (⟨200, RespBody.okFull (s3Url env (genKey w k)) origUrl maskUrl⟩,
          evs ++ [Event.inferCall mi, Event.fetchCall url,
            Event.s3Upload (w.fetchBody url) (genKey w k) "image/jpeg",
            Event.dbSave (genDoc env w req origUrl maskUrl k)])
      else
        (r500 "Failed to save gallery item",
          evs ++ [Event.inferCall mi, Event.fetchCall url,
            Event.s3Upload (w.fetchBody url) (genKey w k) "image/jpeg",
            Event.dbSave (genDoc env w req origUrl maskUrl k)])
    else
      (r500 "Failed to fetch image from Replicate API",
        evs ++ [Event.inferCall mi, Event.fetchCall url])

/-- The storage key of the uploaded original image: `original_` plus the
client filename, prefixed by `uploadToS3` with `Date.now()` (reading 0). -/
def origKey (w : World) (img : UploadedFile) : String :=
  s3Key (w.now 0) ("original_" ++ img.originalname)

/-- The storage key of the uploaded processed mask: the filename embeds a
`Date.now()` reading (1) and `uploadToS3` prefixes another (2). -/
def maskKey (w : World) : String :=
  s3Key (w.now 2) ("mask_" ++ toString (w.now 1) ++ ".png")

/-- The model input sent in prompt-only mode: the base literal with the
`image`, `mask`, `controlnet_conditioning_scale` and `controlnet_type` keys
deleted. -/
def promptOnlyInput (req : Request) (d : Option Dims) : ModelInput :=
  { baseModelInput (enhancedPrompt (jsStr req.prompt) d) with
      image := none
      mask := none
      controlnet_conditioning_scale := none
      controlnet_type := none }

/-- The model input sent in edit mode: the base literal with `image` set to
the uploaded original URL and, when a mask was supplied, `mask` set to the
uploaded mask URL.  The controlnet keys of the literal are kept. -/
def editInput (env : Env) (w : World) (req : Request) (d : Option Dims)
    (img : UploadedFile) (hasMask : Bool) : ModelInput :=
  { baseModelInput (enhancedPrompt (jsStr req.prompt) d) with
      image := some (s3Url env (origKey w img))
      mask := if hasMask then some (s3Url env (maskKey w)) else none }

/-- The richer POST /api/generate handler.  Mode determination follows the
source: a multipart request (`req.files` set) selects edit mode, and edit
mode without an `image` file is rejected 400 before any remote call;
otherwise the handler parses dimensions, composes the enhanced prompt,
optionally preprocesses and uploads the image and mask, and runs the shared
tail.  Note that the mask upload passes `processedMask.buffer` — the whole
underlying ArrayBuffer of the processed Buffer — as the body. -/
def generateHandler (env : Env) (w : World) (req : Request) :
    Resp × List Event :=
  match req.files with
  | none =>
    match dimsStep w req.dimensions with
    | Except.error msg => (r500 msg, [])
    | Except.ok d =>
      genTail env w req (promptOnlyInput req d) none none 0 []
  | some fs =>
    match fs.image with
    | none => (⟨400, RespBody.err "No image provided for image-based generation"⟩, [])
    | some img =>
      match dimsStep w req.dimensions with
      | Except.error msg => (r500 msg, [])
      | Except.ok d =>
        match fs.mask with
        | none =>
          genTail env w req (editInput env w req d img false)
            (some (s3Url env (origKey w img))) none 1
            [Event.s3Upload (w.sharpImage img.buffer) (origKey w img) "image/jpeg"]
        | some mk =>
          genTail env w req (editInput env w req d img true)
            (some (s3Url env (origKey w img))) (some (s3Url env (maskKey w))) 3
            [Event.s3Upload (w.sharpImage img.buffer) (origKey w img) "image/jpeg",
              Event.s3Upload (w.sharpMask mk.buffer).pool (maskKey w) "image/png"]

/-- The standard base64 alphabet. -/
def base64Table : String :=
  "ABCDEFGHIJKLMNOPQRSTUVWXYZabcdefghijklmnopqrstuvwxyz0123456789+/"

/-- Character at a 6-bit index of the base64 alphabet. -/
def b64Char (n : Nat) : Char :=
  base64Table.toList.getD n 'A'

/-- Base64 encoding of a byte list, as Buffer.toString base64 produces,
with `=` padding. -/
def base64Encode : List Nat → String
  | [] => ""
  | [a] =>
    String.mk [b64Char (a / 4 % 64), b64Char (a % 4 * 16), '=', '=']
  | [a, b] =>
    String.mk [b64Char (a / 4 % 64), b64Char (a % 4 * 16 + b / 16),
      b64Char (b % 16 * 4), '=']
  | a :: b :: c :: rest =>
    String.mk [b64Char (a / 4 % 64), b64Char (a % 4 * 16 + b / 16),
      b64Char (b % 16 * 4 + c / 64), b64Char (c % 64)] ++ base64Encode rest

/-- The `streamToBuffer` helper of the first variant: concatenate the chunks
of a ReadableStream into one Buffer. -/
def streamToBuffer (chunks : List (List Nat)) : List Nat :=
  chunks.flatten

/-- Oracle for the first variant: `replicate.run` keyed by the request
prompt (its input object is `{aspect_ratio: "16:9", prompt, output_format:
"jpg"}`, so the prompt is the only varying part). -/
structure V1World where
  run : Option String → List OutputItem

/-- The first, minimal POST /api/generate handler.  The output check is the
JavaScript truthiness test `if (output && output[0])`: an array is always
truthy, the first element is falsy when absent or the empty string.  A
string first element is returned directly as `outputUrl`; a ReadableStream
is converted to a Buffer and returned as an inline base64 data URI; any
other object throws, and all thrown errors become the catch-all 500. -/
def generateHandlerV1 (w : V1World) (prompt : Option String) : Resp :=
  match w.run prompt with
  | [] => r500 "No output received from Replicate API"
  | x :: _ =>
    match x with
    | OutputItem.str s =>
      if s = "" then r500 "No output received from Replicate API"
      else ⟨200, RespBody.okUrl s⟩
    | OutputItem.stream chunks =>
      ⟨200, RespBody.okUrl ("data:image/jpeg;base64," ++ base64Encode (streamToBuffer chunks))⟩
    | OutputItem.other => r500 "Unexpected output format from Replicate API"

/-- Newest-first order on gallery documents, the order requested by
`.sort({createdAt: -1})`. -/
def newestFirst (a b : GalleryDoc) : Prop :=
  b.createdAt ≤ a.createdAt

instance : DecidableRel newestFirst := fun a b =>
  inferInstanceAs (Decidable (b.createdAt ≤ a.createdAt))

instance : IsTotal GalleryDoc newestFirst :=
  ⟨fun a b => Nat.le_total b.createdAt a.createdAt⟩

instance : IsTrans GalleryDoc newestFirst :=
  ⟨fun _ _ _ h1 h2 => Nat.le_trans h2 h1⟩

/-- The query result of `Gallery.find().sort({createdAt: -1})` over the
persisted collection `db`. -/
def listAll (db : List GalleryDoc) : List GalleryDoc :=
  List.insertionSort newestFirst db

/-- A GET /api/gallery response body. -/
inductive GalleryResp where
  | ok (items : List GalleryDoc)
  | err (error details : String)
deriving Repr, DecidableEq

/-- The GET /api/gallery handler: `dbFind` is `some db` when the database
round trip succeeds with collection contents `db`, `none` when it throws
(with the given message producing the 500 details). -/
def galleryHandler (dbFind : Option (List GalleryDoc)) : Nat × GalleryResp :=
  match dbFind with
  | some db => (200, GalleryResp.ok (listAll db))
  | none => (500, GalleryResp.err "Failed to fetch gallery items" "database error")

/-- A concrete storage configuration used by concrete instantiations. -/
def envC : Env :=
  ⟨"myportfolio-bucket", "eu-central-1"⟩

/-- A concrete world in which every external call succeeds: the model
returns one URL string, the fetch succeeds with a two-byte body, sharp
returns its input for the image and a pooled Buffer view for the mask,
dimensions parse to 3 by 4 by 2, the database accepts every save, and the
clock reads 100, 101, 102, ... on successive calls. -/
def wHappy : World where
  replicateRun := fun _ => [OutputItem.str "https://replicate.delivery/out.jpg"]
  fetchOk := fun _ => true
  fetchBody := fun _ => [7, 7]
  sharpImage := fun b => b
  sharpMask := fun b => ⟨9 :: b, 1, b.length⟩
  jsonParseDims := fun _ => Except.ok ⟨3, 4, 2⟩
  dbOk := fun _ => true
  now := fun k => 100 + k

/-- A concrete world identical to `wHappy` except that the model resolves
to an empty output list. -/
def wEmptyOut : World where
  replicateRun := fun _ => []
  fetchOk := fun _ => true
  fetchBody := fun _ => [7, 7]
  sharpImage := fun b => b
  sharpMask := fun b => ⟨9 :: b, 1, b.length⟩
  jsonParseDims := fun _ => Except.ok ⟨3, 4, 2⟩
  dbOk := fun _ => true
  now := fun k => 100 + k

/-- A concrete prompt-only request. -/
def reqPromptOnly : Request :=
  ⟨some "cozy loft", none, none⟩

/-- The dimensions JSON string used by concrete requests below. -/
def dimStrC : String :=
  "\x7b\"width\":3,\"length\":4,\"height\":2\x7d"

/-- A concrete prompt-only request carrying a dimensions JSON string. -/
def reqWithDims : Request :=
  ⟨some "cozy loft", some dimStrC, none⟩

/-- Whether every character of a string is alphanumeric or an underscore,
the alphabet the spec promises for the filename portion of storage keys. -/
def alnumU (s : String) : Bool :=
  s.toList.all fun c => c.isAlphanum || c = '_'

/-- The filename portion of a storage key: what follows the fixed path
prefix. -/
def filenamePortion (key : String) : String :=
  key.drop "genai-images/".length

/-- The key construction the spec describes for `uploadToS3`: timestamp and
a sanitized filename fragment with all non-alphanumeric characters
stripped, after the fixed path prefix.  This follows the words of the spec,
for comparison with `s3Key`, which is translated from the code. -/
def s3KeySpec (t : Nat) (filename : String) : String :=
  "genai-images/" ++ toString t ++ "_" ++
    String.mk (filename.toList.filter Char.isAlphanum)

/-- A concrete request with no prompt, no dimensions and no files. -/
def reqNoPrompt : Request :=
  ⟨none, none, none⟩

/-- A concrete first-variant world resolving to a single string URL. -/
def w1Str : V1World :=
  ⟨fun _ => [OutputItem.str "https://replicate.delivery/xyz/out.jpg"]⟩

/-- A concrete first-variant world resolving to a ReadableStream of the
byte chunks [1] and [2, 3]. -/
def w1Stream : V1World :=
  ⟨fun _ => [OutputItem.stream [[1], [2, 3]]]⟩

/-- A concrete uploaded image file whose client filename holds a space: a
non-alphanumeric character that a sanitizer would strip. -/
def imgFile : UploadedFile :=
  ⟨[10, 11], "photo one.png"⟩

/-- A concrete uploaded mask file. -/
def maskFile : UploadedFile :=
  ⟨[1, 0, 1], "mask.png"⟩

/-- A concrete edit-mode request carrying both an image and a mask. -/
def reqEditMask : Request :=
  ⟨some "p", none, some ⟨some imgFile, some maskFile⟩⟩

/-- Case equation for `genTail`: malformed inference output. -/
theorem genTail_bad (env : Env) (w : World) (req : Request) (mi : ModelInput)
    (origUrl maskUrl : Option String) (k : Nat) (evs : List Event)
    (h : firstStr? (w.replicateRun mi) = none) :
    genTail env w req mi origUrl maskUrl k evs =
      (r500 "Invalid output format from Replicate API", evs ++ [Event.inferCall mi]) := by
  unfold genTail
  rw [h]

/-- Case equation for `genTail`: accepted URL but failing artifact fetch. -/
theorem genTail_fetchFail (env : Env) (w : World) (req : Request) (mi : ModelInput)
    (origUrl maskUrl : Option String) (k : Nat) (evs : List Event) (url : String)
    (h : firstStr? (w.replicateRun mi) = some url) (hf : w.fetchOk url = false) :
    genTail env w req mi origUrl maskUrl k evs =
      (r500 "Failed to fetch image from Replicate API",
        evs ++ [Event.inferCall mi, Event.fetchCall url]) := by
  unfold genTail
  rw [h]
  simp [hf]

/-- Case equation for `genTail`: fetch succeeded but the save rejected. -/
theorem genTail_saveFail (env : Env) (w : World) (req : Request) (mi : ModelInput)
    (origUrl maskUrl : Option String) (k : Nat) (evs : List Event) (url : String)
    (h : firstStr? (w.replicateRun mi) = some url) (hf : w.fetchOk url = true)
    (hs : saveOk w (genDoc env w req origUrl maskUrl k) = false) :
    genTail env w req mi origUrl maskUrl k evs =
      (r500 "Failed to save gallery item",
        evs ++ [Event.inferCall mi, Event.fetchCall url,
          Event.s3Upload (w.fetchBody url) (genKey w k) "image/jpeg",
          Event.dbSave (genDoc env w req origUrl maskUrl k)]) := by
  unfold genTail
  rw [h]
  simp [hf, hs]

/-- Case equation for `genTail`: every step succeeded. -/
theorem genTail_succ (env : Env) (w : World) (req : Request) (mi : ModelInput)
    (origUrl maskUrl : Option String) (k : Nat) (evs : List Event) (url : String)
    (h : firstStr? (w.replicateRun mi) = some url) (hf : w.fetchOk url = true)
    (hs : saveOk w (genDoc env w req origUrl maskUrl k) = true) :
    genTail env w req mi origUrl maskUrl k evs =
      (⟨200, RespBody.okFull (s3Url env (genKey w k)) origUrl maskUrl⟩,
        evs ++ [Event.inferCall mi, Event.fetchCall url,
          Event.s3Upload (w.fetchBody url) (genKey w k) "image/jpeg",
          Event.dbSave (genDoc env w req origUrl maskUrl k)]) := by
  unfold genTail
  rw [h]
  simp [hf, hs]

/-- The only inference call recorded by `genTail` beyond `evs` is the one
for the model input it was given. -/
theorem genTail_infer_mem (env : Env) (w : World) (req : Request) (mi : ModelInput)
    (origUrl maskUrl : Option String) (k : Nat) (evs : List Event) (inp : ModelInput)
    (hmem : Event.inferCall inp ∈ (genTail env w req mi origUrl maskUrl k evs).2) :
    Event.inferCall inp ∈ evs ∨ inp = mi := by
  cases h : firstStr? (w.replicateRun mi) with
  | none =>
    rw [genTail_bad env w req mi origUrl maskUrl k evs h] at hmem
    simpa using hmem
  | some url =>
    cases hf : w.fetchOk url with
    | false =>
      rw [genTail_fetchFail env w req mi origUrl maskUrl k evs url h hf] at hmem
      simpa using hmem
    | true =>
      cases hs : saveOk w (genDoc env w req origUrl maskUrl k) with
      | false =>
        rw [genTail_saveFail env w req mi origUrl maskUrl k evs url h hf hs] at hmem
        simpa using hmem
      | true =>
        rw [genTail_succ env w req mi origUrl maskUrl k evs url h hf hs] at hmem
        simpa using hmem

/-- `genTail` always records its inference call. -/
theorem genTail_infer_self (env : Env) (w : World) (req : Request) (mi : ModelInput)
    (origUrl maskUrl : Option String) (k : Nat) (evs : List Event) :
    Event.inferCall mi ∈ (genTail env w req mi origUrl maskUrl k evs).2 := by
  cases h : firstStr? (w.replicateRun mi) with
  | none =>
    rw [genTail_bad env w req mi origUrl maskUrl k evs h]
    simp
  | some url =>
    cases hf : w.fetchOk url with
    | false =>
      rw [genTail_fetchFail env w req mi origUrl maskUrl k evs url h hf]
      simp
    | true =>
      cases hs : saveOk w (genDoc env w req origUrl maskUrl k) with
      | false =>
        rw [genTail_saveFail env w req mi origUrl maskUrl k evs url h hf hs]
        simp
      | true =>
        rw [genTail_succ env w req mi origUrl maskUrl k evs url h hf hs]
        simp

/-- Any document whose save `genTail` records beyond `evs` carries the raw
request prompt. -/
theorem genTail_dbSave_mem (env : Env) (w : World) (req : Request) (mi : ModelInput)
    (origUrl maskUrl : Option String) (k : Nat) (evs : List Event) (d : GalleryDoc)
    (hmem : Event.dbSave d ∈ (genTail env w req mi origUrl maskUrl k evs).2) :
    Event.dbSave d ∈ evs ∨ d = genDoc env w req origUrl maskUrl k := by
  cases h : firstStr? (w.replicateRun mi) with
  | none =>
    rw [genTail_bad env w req mi origUrl maskUrl k evs h] at hmem
    exact Or.inl (by simpa using hmem)
  | some url =>
    cases hf : w.fetchOk url with
    | false =>
      rw [genTail_fetchFail env w req mi origUrl maskUrl k evs url h hf] at hmem
      exact Or.inl (by simpa using hmem)
    | true =>
      cases hs : saveOk w (genDoc env w req origUrl maskUrl k) with
      | false =>
        rw [genTail_saveFail env w req mi origUrl maskUrl k evs url h hf hs] at hmem
        simpa using hmem
      | true =>
        rw [genTail_succ env w req mi origUrl maskUrl k evs url h hf hs] at hmem
        simpa using hmem

/-- `genTail` responds either 200 or 500. -/
theorem genTail_status (env : Env) (w : World) (req : Request) (mi : ModelInput)
    (origUrl maskUrl : Option String) (k : Nat) (evs : List Event) :
    (genTail env w req mi origUrl maskUrl k evs).1.status = 200 ∨
      (genTail env w req mi origUrl maskUrl k evs).1.status = 500 := by
  cases h : firstStr? (w.replicateRun mi) with
  | none =>
    rw [genTail_bad env w req mi origUrl maskUrl k evs h]
    exact Or.inr rfl
  | some url =>
    cases hf : w.fetchOk url with
    | false =>
      rw [genTail_fetchFail env w req mi origUrl maskUrl k evs url h hf]
      exact Or.inr rfl
    | true =>
      cases hs : saveOk w (genDoc env w req origUrl maskUrl k) with
      | false =>
        rw [genTail_saveFail env w req mi origUrl maskUrl k evs url h hf hs]
        exact Or.inr rfl
      | true =>
        rw [genTail_succ env w req mi origUrl maskUrl k evs url h hf hs]
        exact Or.inl rfl

/-- A 200 from `genTail` means every step succeeded: the response body is
the full record built from the S3 URL of the generated artifact, and the
inference output was accepted with a string first element. -/
theorem genTail_200 (env : Env) (w : World) (req : Request) (mi : ModelInput)
    (origUrl maskUrl : Option String) (k : Nat) (evs : List Event)
    (h200 : (genTail env w req mi origUrl maskUrl k evs).1.status = 200) :
    (genTail env w req mi origUrl maskUrl k evs).1.body =
      RespBody.okFull (s3Url env (genKey w k)) origUrl maskUrl ∧
      ∃ url, firstStr? (w.replicateRun mi) = some url := by
  cases h : firstStr? (w.replicateRun mi) with
  | none =>
    rw [genTail_bad env w req mi origUrl maskUrl k evs h] at h200
    simp [r500] at h200
  | some url =>
    cases hf : w.fetchOk url with
    | false =>
      rw [genTail_fetchFail env w req mi origUrl maskUrl k evs url h hf] at h200
      simp [r500] at h200
    | true =>
      cases hs : saveOk w (genDoc env w req origUrl maskUrl k) with
      | false =>
        rw [genTail_saveFail env w req mi origUrl maskUrl k evs url h hf hs] at h200
        simp [r500] at h200
      | true =>
        rw [genTail_succ env w req mi origUrl maskUrl k evs url h hf hs]
        exact ⟨rfl, url, rfl⟩

/-- Case equation for `generateHandler`: prompt-only mode, dimensions step
succeeded. -/
theorem generateHandler_promptOnly (env : Env) (w : World) (req : Request)
    (d : Option Dims) (hf : req.files = none)
    (hd : dimsStep w req.dimensions = Except.ok d) :
    generateHandler env w req =
      genTail env w req (promptOnlyInput req d) none none 0 [] := by
  unfold generateHandler
  rw [hf, hd]

/-- Case equation for `generateHandler`: prompt-only mode, JSON.parse of
the dimensions field threw. -/
theorem generateHandler_promptOnly_dimsErr (env : Env) (w : World) (req : Request)
    (msg : String) (hf : req.files = none)
    (hd : dimsStep w req.dimensions = Except.error msg) :
    generateHandler env w req = (r500 msg, []) := by
  unfold generateHandler
  rw [hf, hd]

/-- Case equation for `generateHandler`: multipart request without an image
file is rejected 400 with an empty trace. -/
theorem generateHandler_400 (env : Env) (w : World) (req : Request) (fs : Files)
    (hf : req.files = some fs) (hi : fs.image = none) :
    generateHandler env w req =
      (⟨400, RespBody.err "No image provided for image-based generation"⟩, []) := by
  unfold generateHandler
  simp only [hf, hi]

/-- Case equation for `generateHandler`: edit mode, dimensions parse threw. -/
theorem generateHandler_edit_dimsErr (env : Env) (w : World) (req : Request)
    (fs : Files) (img : UploadedFile) (msg : String)
    (hf : req.files = some fs) (hi : fs.image = some img)
    (hd : dimsStep w req.dimensions = Except.error msg) :
    generateHandler env w req = (r500 msg, []) := by
  unfold generateHandler
  simp only [hf, hi, hd]

/-- Case equation for `generateHandler`: edit mode without a mask. -/
theorem generateHandler_edit_noMask (env : Env) (w : World) (req : Request)
    (fs : Files) (img : UploadedFile) (d : Option Dims)
    (hf : req.files = some fs) (hi : fs.image = some img)
    (hd : dimsStep w req.dimensions = Except.ok d) (hm : fs.mask = none) :
    generateHandler env w req =
      genTail env w req (editInput env w req d img false)
        (some (s3Url env (origKey w img))) none 1
        [Event.s3Upload (w.sharpImage img.buffer) (origKey w img) "image/jpeg"] := by
  unfold generateHandler
  simp only [hf, hi, hd, hm]

/-- Case equation for `generateHandler`: edit mode with a mask. -/
theorem generateHandler_edit_mask (env : Env) (w : World) (req : Request)
    (fs : Files) (img mk : UploadedFile) (d : Option Dims)
    (hf : req.files = some fs) (hi : fs.image = some img)
    (hd : dimsStep w req.dimensions = Except.ok d) (hm : fs.mask = some mk) :
    generateHandler env w req =
      genTail env w req (editInput env w req d img true)
        (some (s3Url env (origKey w img))) (some (s3Url env (maskKey w))) 3
        [Event.s3Upload (w.sharpImage img.buffer) (origKey w img) "image/jpeg",
          Event.s3Upload (w.sharpMask mk.buffer).pool (maskKey w) "image/png"] := by
  unfold generateHandler
  simp only [hf, hi, hd, hm]

/-- C1: for every POST /api/generate request in edit mode (a multipart
request whose files object is present) where the image field is absent, the
handler responds 400 with an error body, and no inference call, object
store upload, or database persistence is attempted before that response
(the remote-call trace is empty). -/
theorem C1_missing_image_rejected_400 (env : Env) (w : World) (req : Request)
    (fs : Files) (hf : req.files = some fs) (hi : fs.image = none) :
    (generateHandler env w req).1.status = 400 ∧
      (generateHandler env w req).1.body =
        RespBody.err "No image provided for image-based generation" ∧
      (generateHandler env w req).2 = [] := by
  rw [generateHandler_400 env w req fs hf hi]
  exact ⟨rfl, rfl, rfl⟩

/-- Witness for C1 at a concrete multipart request without an image. -/
theorem C1_missing_image_rejected_400_witness :
    (generateHandler envC wHappy ⟨some "p", none, some ⟨none, none⟩⟩).1.status = 400 ∧
      (generateHandler envC wHappy ⟨some "p", none, some ⟨none, none⟩⟩).1.body =
        RespBody.err "No image provided for image-based generation" ∧
      (generateHandler envC wHappy ⟨some "p", none, some ⟨none, none⟩⟩).2 = [] :=
  C1_missing_image_rejected_400 envC wHappy ⟨some "p", none, some ⟨none, none⟩⟩
    ⟨none, none⟩ rfl rfl

/-- C2: for every POST /api/generate request, if the inference call of the
richer variant yields an empty result or a result whose first element is
missing or not a (truthy) string, the response is 500 and no GalleryItem
save is attempted (no dbSave event in the trace). -/
theorem C2_malformed_output_500_no_persist (env : Env) (w : World) (req : Request)
    (inp : ModelInput)
    (hmem : Event.inferCall inp ∈ (generateHandler env w req).2)
    (hbad : firstStr? (w.replicateRun inp) = none) :
    (generateHandler env w req).1.status = 500 ∧
      ∀ d, Event.dbSave d ∉ (generateHandler env w req).2 := by
  cases hf : req.files with
  | none =>
    cases hd : dimsStep w req.dimensions with
    | error msg =>
      rw [generateHandler_promptOnly_dimsErr env w req msg hf hd] at hmem
      simp at hmem
    | ok d =>
      rw [generateHandler_promptOnly env w req d hf hd] at hmem ⊢
      rcases genTail_infer_mem env w req _ none none 0 [] inp hmem with h | h
      · simp at h
      · subst h
        rw [genTail_bad env w req _ none none 0 [] hbad]
        refine ⟨rfl, ?_⟩
        intro d' hd'
        simp at hd'
  | some fs =>
    cases hi : fs.image with
    | none =>
      rw [generateHandler_400 env w req fs hf hi] at hmem
      simp at hmem
    | some img =>
      cases hd : dimsStep w req.dimensions with
      | error msg =>
        rw [generateHandler_edit_dimsErr env w req fs img msg hf hi hd] at hmem
        simp at hmem
      | ok d =>
        cases hm : fs.mask with
        | none =>
          rw [generateHandler_edit_noMask env w req fs img d hf hi hd hm] at hmem ⊢
          rcases genTail_infer_mem env w req _ _ none 1 _ inp hmem with h | h
          · simp at h
          · subst h
            rw [genTail_bad env w req _ _ none 1 _ hbad]
            refine ⟨rfl, ?_⟩
            intro d' hd'
            simp at hd'
        | some mk =>
          rw [generateHandler_edit_mask env w req fs img mk d hf hi hd hm] at hmem ⊢
          rcases genTail_infer_mem env w req _ _ _ 3 _ inp hmem with h | h
          · simp at h
          · subst h
            rw [genTail_bad env w req _ _ _ 3 _ hbad]
            refine ⟨rfl, ?_⟩
            intro d' hd'
            simp at hd'

/-- Witness for C2: a concrete prompt-only request against a world whose
model resolves to an empty list. -/
theorem C2_malformed_output_500_no_persist_witness :
    (generateHandler envC wEmptyOut reqPromptOnly).1.status = 500 ∧
      ∀ d, Event.dbSave d ∉ (generateHandler envC wEmptyOut reqPromptOnly).2 :=
  C2_malformed_output_500_no_persist envC wEmptyOut reqPromptOnly
    (promptOnlyInput reqPromptOnly none)
    (by rw [generateHandler_promptOnly envC wEmptyOut reqPromptOnly none rfl rfl]
        exact genTail_infer_self envC wEmptyOut reqPromptOnly _ none none 0 []) rfl

/-- Counterexample to C3 as stated: at the filename fragment the code
itself passes for generated artifacts, the key built by `uploadToS3`
differs from the sanitized key the spec describes, and its filename portion
holds characters outside the alphanumeric-and-underscore alphabet (the
dots of the extension). -/
theorem C3_key_not_sanitized_cex :
    s3Key 999 "generated_999.jpg" ≠ s3KeySpec 999 "generated_999.jpg" ∧
      alnumU (filenamePortion (s3Key 999 "generated_999.jpg")) = false := by
  decide

/-- C3 amended: the storage key is the fixed path prefix followed by a
timestamp, an underscore, and the filename fragment used verbatim; no
character is stripped, so every character of the fragment, alphanumeric or
not, appears in the key. -/
theorem C3_key_verbatim_fragment (t : Nat) (f : String) :
    (s3Key t f).data = "genai-images/".data ++ (toString t).data ++ '_' :: f.data ∧
      ∀ c, c ∈ f.data → c ∈ (s3Key t f).data := by
  constructor
  · show (("genai-images/" ++ toString t ++ "_" ++ f)).data = _
    simp [String.data_append]
  · intro c hc
    show c ∈ (("genai-images/" ++ toString t ++ "_" ++ f)).data
    simp [String.data_append]
    tauto

/-- Witness for C3 amended: the space of a concrete filename fragment
survives into the key. -/
theorem C3_key_verbatim_fragment_witness :
    ' ' ∈ "photo one.png".data ∧ ' ' ∈ (s3Key 999 "photo one.png").data :=
  ⟨by decide, (C3_key_verbatim_fragment 999 "photo one.png").2 ' ' (by decide)⟩

/-- Counterexample to C4 as stated: in the first variant a valid
prompt-only request can complete successfully with an outputUrl that is the
inference result URL itself, which is not the bucket-and-region URL of any
storage key. -/
theorem C4_outputUrl_other_location_cex :
    generateHandlerV1 w1Str (some "cozy loft") =
      ⟨200, RespBody.okUrl "https://replicate.delivery/xyz/out.jpg"⟩ ∧
      ∀ key, s3Url envC key ≠ "https://replicate.delivery/xyz/out.jpg" := by
  refine ⟨rfl, ?_⟩
  intro key h
  have h2 := congrArg String.data h
  rw [show s3Url envC key =
      "https://myportfolio-bucket.s3.eu-central-1.amazonaws.com/" ++ key from rfl] at h2
  rw [String.data_append] at h2
  have h3 := congrArg (List.take 57) h2
  rw [List.take_left' (by decide)] at h3
  exact absurd h3 (by decide)

/-- C4 amended: in the richer variant, every prompt-only request that
completes with a 200 has the outputUrl of the response built by
`uploadToS3` from the configured bucket and region and a generated key, of
the form https bucket s3 region amazonaws with the genai-images path. -/
theorem C4_rich_outputUrl_bucket_form (env : Env) (w : World) (req : Request)
    (hf : req.files = none)
    (h200 : (generateHandler env w req).1.status = 200) :
    ∃ t1 t2 : Nat, (generateHandler env w req).1.body =
      RespBody.okFull (s3Url env (s3Key t2 ("generated_" ++ toString t1 ++ ".jpg")))
        none none := by
  cases hd : dimsStep w req.dimensions with
  | error msg =>
    rw [generateHandler_promptOnly_dimsErr env w req msg hf hd] at h200
    simp [r500] at h200
  | ok d =>
    rw [generateHandler_promptOnly env w req d hf hd] at h200 ⊢
    exact ⟨w.now 0, w.now 1, (genTail_200 env w req _ none none 0 [] h200).1⟩

/-- Witness for C4 amended at a concrete successful prompt-only request. -/
theorem C4_rich_outputUrl_bucket_form_witness :
    ∃ t1 t2 : Nat, (generateHandler envC wHappy reqPromptOnly).1.body =
      RespBody.okFull (s3Url envC (s3Key t2 ("generated_" ++ toString t1 ++ ".jpg")))
        none none :=
  C4_rich_outputUrl_bucket_form envC wHappy reqPromptOnly rfl rfl

/-- Counterexample to C5 as stated: a request whose body lacks prompt is
not rejected with 400; the handler calls the inference model (the trace
holds an inference event) and the failure only surfaces later, as a 500. -/
theorem C5_missing_prompt_not_rejected_cex :
    (generateHandler envC wHappy reqNoPrompt).1.status = 500 ∧
      Event.inferCall (promptOnlyInput reqNoPrompt none) ∈
        (generateHandler envC wHappy reqNoPrompt).2 := by
  refine ⟨rfl, ?_⟩
  rw [generateHandler_promptOnly envC wHappy reqNoPrompt none rfl rfl]
  exact genTail_infer_self envC wHappy reqNoPrompt _ none none 0 []

/-- C5 amended: a non-multipart request without prompt or dimensions is
never answered 400; the inference call is made with the text undefined
interpolated into the enhanced prompt, and any gallery save the handler
attempts carries no prompt and is rejected by the mongoose required-field
validation, so the request fails 500 at the persistence step when all
remote calls succeed. -/
theorem C5_missing_prompt_proceeds (env : Env) (w : World) (req : Request)
    (hp : req.prompt = none) (hf : req.files = none) (hd : req.dimensions = none) :
    (generateHandler env w req).1.status ≠ 400 ∧
      Event.inferCall (promptOnlyInput req none) ∈ (generateHandler env w req).2 ∧
      (promptOnlyInput req none).prompt = enhancedPrompt "undefined" none ∧
      ∀ d, Event.dbSave d ∈ (generateHandler env w req).2 → saveOk w d = false := by
  have hds : dimsStep w req.dimensions = Except.ok none := by rw [hd]; rfl
  rw [generateHandler_promptOnly env w req none hf hds]
  refine ⟨?_, genTail_infer_self env w req _ none none 0 [], ?_, ?_⟩
  · rcases genTail_status env w req (promptOnlyInput req none) none none 0 [] with h | h <;>
      rw [h] <;> decide
  · simp [promptOnlyInput, baseModelInput, jsStr, hp]
  · intro d hdm
    rcases genTail_dbSave_mem env w req _ none none 0 [] d hdm with h | h
    · simp at h
    · subst h
      simp [saveOk, mongooseRequiredOk, genDoc, hp]

/-- Witness for C5 amended at the concrete promptless request. -/
theorem C5_missing_prompt_proceeds_witness :
    (generateHandler envC wHappy reqNoPrompt).1.status ≠ 400 ∧
      Event.inferCall (promptOnlyInput reqNoPrompt none) ∈
        (generateHandler envC wHappy reqNoPrompt).2 ∧
      (promptOnlyInput reqNoPrompt none).prompt = enhancedPrompt "undefined" none ∧
      ∀ d, Event.dbSave d ∈ (generateHandler envC wHappy reqNoPrompt).2 →
        saveOk wHappy d = false :=
  C5_missing_prompt_proceeds envC wHappy reqNoPrompt rfl rfl rfl

/-- Counterexample to C6 as stated: the first variant does attempt an
alternate output encoding: when the first element of the inference result
is a ReadableStream, it is accepted (status 200) and converted into an
inline base64 data URI instead of failing fast. -/
theorem C6_stream_data_uri_cex :
    generateHandlerV1 w1Stream (some "p") =
      ⟨200, RespBody.okUrl "data:image/jpeg;base64,AQID"⟩ := by
  rfl

/-- C6 amended: the richer variant accepts the inference response only
when the first element is a truthy string (every 200 response implies the
recorded inference call had a string first element); the first variant
additionally accepts a ReadableStream first element, encoding the
concatenated chunks as an inline base64 data URI. -/
theorem C6_first_element_string_accepted :
    (∀ (env : Env) (w : World) (req : Request),
        (generateHandler env w req).1.status = 200 →
        ∃ inp url, Event.inferCall inp ∈ (generateHandler env w req).2 ∧
          firstStr? (w.replicateRun inp) = some url) ∧
      ∀ (w : V1World) (p : Option String) (chunks : List (List Nat))
          (rest : List OutputItem),
        w.run p = OutputItem.stream chunks :: rest →
        generateHandlerV1 w p =
          ⟨200, RespBody.okUrl
            ("data:image/jpeg;base64," ++ base64Encode (streamToBuffer chunks))⟩ := by
  constructor
  · intro env w req h200
    cases hf : req.files with
    | none =>
      cases hd : dimsStep w req.dimensions with
      | error msg =>
        rw [generateHandler_promptOnly_dimsErr env w req msg hf hd] at h200
        simp [r500] at h200
      | ok d =>
        rw [generateHandler_promptOnly env w req d hf hd] at h200 ⊢
        obtain ⟨_, url, hurl⟩ := genTail_200 env w req _ none none 0 [] h200
        exact ⟨_, url, genTail_infer_self env w req _ none none 0 [], hurl⟩
    | some fs =>
      cases hi : fs.image with
      | none =>
        rw [generateHandler_400 env w req fs hf hi] at h200
        simp at h200
      | some img =>
        cases hd : dimsStep w req.dimensions with
        | error msg =>
          rw [generateHandler_edit_dimsErr env w req fs img msg hf hi hd] at h200
          simp [r500] at h200
        | ok d =>
          cases hm : fs.mask with
          | none =>
            rw [generateHandler_edit_noMask env w req fs img d hf hi hd hm] at h200 ⊢
            obtain ⟨_, url, hurl⟩ := genTail_200 env w req _ _ none 1 _ h200
            exact ⟨_, url, genTail_infer_self env w req _ _ none 1 _, hurl⟩
          | some mk =>
            rw [generateHandler_edit_mask env w req fs img mk d hf hi hd hm] at h200 ⊢
            obtain ⟨_, url, hurl⟩ := genTail_200 env w req _ _ _ 3 _ h200
            exact ⟨_, url, genTail_infer_self env w req _ _ _ 3 _, hurl⟩
  · intro w p chunks rest h
    unfold generateHandlerV1
    rw [h]

/-- Witness for C6 amended: the richer part at a concrete successful
request, and the first-variant part at a concrete stream result. -/
theorem C6_first_element_string_accepted_witness :
    (∃ inp url, Event.inferCall inp ∈ (generateHandler envC wHappy reqPromptOnly).2 ∧
        firstStr? (wHappy.replicateRun inp) = some url) ∧
      generateHandlerV1 w1Stream (some "p") =
        ⟨200, RespBody.okUrl
          ("data:image/jpeg;base64," ++ base64Encode (streamToBuffer [[1], [2, 3]]))⟩ :=
  ⟨C6_first_element_string_accepted.1 envC wHappy reqPromptOnly rfl,
    C6_first_element_string_accepted.2 w1Stream (some "p") [[1], [2, 3]] [] rfl⟩

/-- C7: for every inference call the richer handler records, the model
input in prompt-only mode has no image, mask, controlnet conditioning
scale, or controlnet type key at all; in edit mode the image key is set to
the S3 URL of the uploaded original, the mask key is absent when no mask
was supplied and set to the S3 URL of the uploaded mask when one was. -/
theorem C7_model_input_keys (env : Env) (w : World) (req : Request)
    (inp : ModelInput)
    (hmem : Event.inferCall inp ∈ (generateHandler env w req).2) :
    (req.files = none →
      inp.image = none ∧ inp.mask = none ∧
        inp.controlnet_conditioning_scale = none ∧ inp.controlnet_type = none) ∧
      ∀ fs img, req.files = some fs → fs.image = some img →
        inp.image = some (s3Url env (origKey w img)) ∧
          (fs.mask = none → inp.mask = none) ∧
          ∀ mk, fs.mask = some mk → inp.mask = some (s3Url env (maskKey w)) := by
  cases hf : req.files with
  | none =>
    refine ⟨fun _ => ?_, fun fs img hfs => Option.noConfusion hfs⟩
    cases hd : dimsStep w req.dimensions with
    | error msg =>
      rw [generateHandler_promptOnly_dimsErr env w req msg hf hd] at hmem
      simp at hmem
    | ok d =>
      rw [generateHandler_promptOnly env w req d hf hd] at hmem
      rcases genTail_infer_mem env w req _ none none 0 [] inp hmem with h | h
      · simp at h
      · subst h
        exact ⟨rfl, rfl, rfl, rfl⟩
  | some fs0 =>
    refine ⟨fun hn => Option.noConfusion hn, fun fs img hfs himg => ?_⟩
    injection hfs with hfs
    subst hfs
    cases hd : dimsStep w req.dimensions with
    | error msg =>
      rw [generateHandler_edit_dimsErr env w req fs0 img msg hf himg hd] at hmem
      simp at hmem
    | ok d =>
      cases hm : fs0.mask with
      | none =>
        rw [generateHandler_edit_noMask env w req fs0 img d hf himg hd hm] at hmem
        rcases genTail_infer_mem env w req _ _ none 1 _ inp hmem with h | h
        · simp at h
        · subst h
          exact ⟨rfl, fun _ => rfl, fun mk hmk => Option.noConfusion hmk⟩
      | some mk0 =>
        rw [generateHandler_edit_mask env w req fs0 img mk0 d hf himg hd hm] at hmem
        rcases genTail_infer_mem env w req _ _ _ 3 _ inp hmem with h | h
        · simp at h
        · subst h
          exact ⟨rfl, fun hn => Option.noConfusion hn, fun mk hmk => rfl⟩

/-- Witness for C7: the prompt-only part at a concrete prompt-only request,
and the edit part at a concrete request with image and mask. -/
theorem C7_model_input_keys_witness :
    ((promptOnlyInput reqPromptOnly none).image = none ∧
        (promptOnlyInput reqPromptOnly none).mask = none ∧
        (promptOnlyInput reqPromptOnly none).controlnet_conditioning_scale = none ∧
        (promptOnlyInput reqPromptOnly none).controlnet_type = none) ∧
      (editInput envC wHappy reqEditMask none imgFile true).image =
        some (s3Url envC (origKey wHappy imgFile)) ∧
      (editInput envC wHappy reqEditMask none imgFile true).mask =
        some (s3Url envC (maskKey wHappy)) :=
  ⟨(C7_model_input_keys envC wHappy reqPromptOnly (promptOnlyInput reqPromptOnly none)
      (by rw [generateHandler_promptOnly envC wHappy reqPromptOnly none rfl rfl]
          exact genTail_infer_self envC wHappy reqPromptOnly _ none none 0 [])).1 rfl,
    ((C7_model_input_keys envC wHappy reqEditMask
      (editInput envC wHappy reqEditMask none imgFile true)
      (by rw [generateHandler_edit_mask envC wHappy reqEditMask ⟨some imgFile, some maskFile⟩
            imgFile maskFile none rfl rfl rfl rfl]
          exact genTail_infer_self envC wHappy reqEditMask _ _ _ 3 _)).2
      ⟨some imgFile, some maskFile⟩ imgFile rfl rfl).1,
    (((C7_model_input_keys envC wHappy reqEditMask
      (editInput envC wHappy reqEditMask none imgFile true)
      (by rw [generateHandler_edit_mask envC wHappy reqEditMask ⟨some imgFile, some maskFile⟩
            imgFile maskFile none rfl rfl rfl rfl]
          exact genTail_infer_self envC wHappy reqEditMask _ _ _ 3 _)).2
      ⟨some imgFile, some maskFile⟩ imgFile rfl rfl).2.2) maskFile rfl⟩

/-- C8: every successful GET /api/gallery response is the whole persisted
collection (a permutation of it: no pagination, no filtering) ordered by
createdAt non-increasing, newest first. -/
theorem C8_gallery_newest_first (db : List GalleryDoc) :
    galleryHandler (some db) = (200, GalleryResp.ok (listAll db)) ∧
      (listAll db).Perm db ∧ List.Sorted newestFirst (listAll db) :=
  ⟨rfl, List.perm_insertionSort newestFirst db, List.sorted_insertionSort newestFirst db⟩

/-- C9: at a concrete successful request carrying a dimensions JSON string,
the document the handler saves stores the raw string under dimensions, and
never the parsed structured object the claim describes. -/
theorem C9_dimensions_raw_string_persisted :
    (generateHandler envC wHappy reqWithDims).1.status = 200 ∧
      Event.dbSave (genDoc envC wHappy reqWithDims none none 0) ∈
        (generateHandler envC wHappy reqWithDims).2 ∧
      (genDoc envC wHappy reqWithDims none none 0).dimensions =
        some (DimsValue.raw dimStrC) ∧
      ∀ d : Dims, (genDoc envC wHappy reqWithDims none none 0).dimensions ≠
        some (DimsValue.parsed d) := by
  refine ⟨rfl, ?_, rfl, ?_⟩
  · rw [generateHandler_promptOnly envC wHappy reqWithDims (some ⟨3, 4, 2⟩) rfl rfl]
    rw [genTail_succ envC wHappy reqWithDims _ none none 0 []
      "https://replicate.delivery/out.jpg" rfl rfl rfl]
    simp
  · intro d h
    rw [show (genDoc envC wHappy reqWithDims none none 0).dimensions =
      some (DimsValue.raw dimStrC) from rfl] at h
    simp at h

/-- C10: at a concrete edit-mode request with a mask, in a world where the
processed mask Buffer is a view into a larger byte pool, the bytes the
handler uploads for the mask are the whole underlying pool (the result of
the processedMask buffer property), and no upload of the trace carries the
processed mask view bytes themselves. -/
theorem C10_mask_upload_pool_bytes :
    Event.s3Upload (wHappy.sharpMask maskFile.buffer).pool (maskKey wHappy) "image/png" ∈
        (generateHandler envC wHappy reqEditMask).2 ∧
      (wHappy.sharpMask maskFile.buffer).pool ≠ (wHappy.sharpMask maskFile.buffer).bytes ∧
      ∀ b key ct, Event.s3Upload b key ct ∈ (generateHandler envC wHappy reqEditMask).2 →
        b ≠ (wHappy.sharpMask maskFile.buffer).bytes := by
  rw [generateHandler_edit_mask envC wHappy reqEditMask ⟨some imgFile, some maskFile⟩
    imgFile maskFile none rfl rfl rfl rfl]
  rw [genTail_succ envC wHappy reqEditMask _ _ _ 3 _
    "https://replicate.delivery/out.jpg" rfl rfl rfl]
  refine ⟨by simp, by decide, ?_⟩
  intro b key ct hmem
  simp at hmem
  rcases hmem with ⟨hb, _⟩ | ⟨hb, _⟩ | ⟨hb, _⟩
  · subst hb; decide
  · subst hb; decide
  · subst hb; decide
